import Mathlib

/-!
Shallow embedding of `src/streamlit_app.py` (News Genie Agent): the article
data model, the enrichment pipeline (`_analyze_sentiment`, `_generate_summary`,
`_extract_keywords`), the sample generator, the article store with its
statistics counters, and the query layer (`get_personalized_news`,
`get_articles_by_category`, `get_articles_by_sentiment`, `search_articles`,
`get_statistics`, `clear_articles`, `set_user_preferences`, `fetch_news`).

Python strings are modelled as Lean `String`; `datetime` timestamps as `Int`
(only their total order and arithmetic offsets matter); Python dicts used as
counters (`defaultdict(int)`) as insertion-ordered association lists
`List (String × Nat)`, matching Python dict semantics (incrementing an
existing key keeps its position, a new key is appended).  Optional Python
arguments become `Option` parameters.  The external NewsAPI call is an input
parameter (its result list; empty on failure or demo key), as the HTTP fetch
itself is an external collaborator.
-/

namespace NewsGenie

/-- Embeds Python `str.lower()` (ASCII model, character by character). -/
def pyLower (s : String) : String := String.mk (s.toList.map Char.toLower)

/-- Embeds Python `str.strip()`: drop leading and trailing whitespace. -/
def pyStrip (s : String) : String :=
  String.mk (((s.toList.dropWhile Char.isWhitespace).reverse.dropWhile
    Char.isWhitespace).reverse)

/-- Embeds the Python slice `s[:n]`: the first `n` characters. -/
def pyTake (s : String) (n : Nat) : String := String.mk (s.toList.take n)

/-- Embeds the Python `in` substring test: `pat` occurs contiguously in `s`
(some suffix of `s` starts with `pat`). -/
def strContains (s pat : String) : Bool :=
  s.toList.tails.any (fun t => pat.toList.isPrefixOf t)

/-- The `NewsArticle` dataclass.  `published_at` is an abstract timestamp. -/
structure NewsArticle where
  title : String
  description : String
  url : String
  source : String
  published_at : Int
  category : String
  sentiment : String := "neutral"
  summary : String := ""
  keywords : List String := []
deriving DecidableEq, Repr

/-- The `user_preferences` dict: three independent filter lists. -/
structure Preferences where
  categories : List String
  keywords : List String
  sources : List String
deriving DecidableEq, Repr

/-- The `statistics` dict: a total plus three insertion-ordered counters. -/
structure Statistics where
  total_articles : Nat
  by_category : List (String × Nat)
  by_sentiment : List (String × Nat)
  by_source : List (String × Nat)
deriving DecidableEq, Repr

/-- The mutable fields of a `NewsGenieAgent` instance. -/
structure State where
  articles : List NewsArticle
  user_preferences : Preferences
  statistics : Statistics
deriving DecidableEq, Repr

/-- The dict `self.statistics` as initialised in `__init__` and reset in
`clear_articles`: zero total, empty `defaultdict` counters. -/
def emptyStatistics : Statistics :=
  { total_articles := 0, by_category := [], by_sentiment := [], by_source := [] }

/-- The agent state right after `__init__`: no articles, empty preference
lists, zeroed statistics. -/
def initialState : State :=
  { articles := []
    user_preferences := { categories := [], keywords := [], sources := [] }
    statistics := emptyStatistics }

/-! ### Sentiment keyword lists (`SENTIMENT_KEYWORDS`) -/

def positiveKeywords : List String :=
  ["success", "growth", "win", "breakthrough", "achievement",
   "innovation", "improve", "gain", "rise", "profit"]

def negativeKeywords : List String :=
  ["fail", "crisis", "decline", "loss", "problem", "concern",
   "risk", "threat", "drop", "controversy"]

def neutralKeywords : List String :=
  ["report", "announce", "state", "update", "change", "develop"]

/-- The text `_analyze_sentiment` and `_extract_keywords` scan:
`(article.title + " " + article.description).lower()`. -/
def articleText (a : NewsArticle) : String :=
  pyLower (a.title ++ " " ++ a.description)

/-- The score the code accumulates per sentiment: one point for each keyword
of the list that occurs in the text (`if keyword in text: scores[s] += 1`) —
each keyword contributes at most one point however often it occurs. -/
def presenceScore (kws : List String) (text : String) : Nat :=
  (kws.filter (fun k => strContains text k)).length

/-- Embeds `_analyze_sentiment`: compare the positive and negative presence scores;
ties (the neutral score is never compared) give `"neutral"`. -/
def analyze_sentiment (a : NewsArticle) : String :=
  let text := articleText a
  let pos := presenceScore positiveKeywords text
  let neg := presenceScore negativeKeywords text
  if neg < pos then "positive"
  else if pos < neg then "negative"
  else "neutral"

/-! ### Summary generation (`_generate_summary`) -/

/-- Embeds Python `str.split(sep)` for a one-character separator:
`pySplit '.' "a.b.".toList = [['a'], ['b'], []]`, `pySplit '.' [] = [[]]`. -/
def pySplit (sep : Char) : List Char → List (List Char)
  | [] => [[]]
  | c :: rest =>
    if c = sep then [] :: pySplit sep rest
    else
      match pySplit sep rest with
      | [] => [[c]]
      | p :: ps => (c :: p) :: ps

/-- Embeds `_generate_summary`: empty description gives the title; otherwise the
first `'.'`-piece of the description, whitespace-stripped, with a period
appended, is used when longer than 20 characters, else the first 100
characters of the description plus `"..."`. -/
def generate_summary (a : NewsArticle) : String :=
  if a.description.isEmpty then a.title
  else
    let sentences := pySplit '.' a.description.toList
    let summary := pyStrip (String.mk (sentences.headD [])) ++ "."
    if 20 < summary.length then summary else pyTake a.description 100 ++ "..."

/-! ### Keyword extraction (`_extract_keywords`) -/

/-- The `common_words` stop-word set. -/
def commonWords : List String :=
  ["the", "a", "an", "and", "or", "but", "in", "on", "at",
   "to", "for", "of", "with", "by", "from", "as", "is", "was"]

/-- A `\w` word character (ASCII model of the regex class). -/
def isWordChar (c : Char) : Bool := c.isAlphanum || c = '_'

/-- Accumulating tokenizer: `cur` holds the current word run reversed. -/
def tokenizeAux : List Char → List Char → List String
  | [], cur => if cur.isEmpty then [] else [String.mk cur.reverse]
  | c :: rest, cur =>
    if isWordChar c then tokenizeAux rest (c :: cur)
    else if cur.isEmpty then tokenizeAux rest []
    else String.mk cur.reverse :: tokenizeAux rest []

/-- Embeds `re.findall(r'\b\w+\b', text)`: the maximal word-character runs. -/
def tokenize (s : String) : List String := tokenizeAux s.toList []

/-- Embeds `_extract_keywords`: tokenize the lowercased title+description, keep
tokens longer than 4 characters that are not stop words, deduplicate
(`list(set(...))`, modelled by a deterministic deduplication — the set order
is unspecified in Python), return at most 5. -/
def extract_keywords (a : NewsArticle) : List String :=
  let words := tokenize (articleText a)
  let keywords := words.filter (fun w => 4 < w.length && !(commonWords.contains w))
  keywords.dedup.take 5

/-! ### Sample generator (`_generate_sample_news`) -/

/-- One entry of the hard-coded `samples` catalog. -/
structure SampleItem where
  title : String
  description : String
  category : String
  source : String
deriving DecidableEq, Repr

/-- The ten canned sample records. -/
def sampleCatalog : List SampleItem :=
  [{ title := "AI Revolution: New Breakthrough in Machine Learning"
     description := "Researchers announce major advancement in neural networks that could transform the industry."
     category := "Technology", source := "Tech News" },
   { title := "Stock Market Reaches New Heights Amid Economic Recovery"
     description := "Major indices show significant gains as investors show confidence in economic outlook."
     category := "Business", source := "Financial Times" },
   { title := "Championship Game Ends in Dramatic Fashion"
     description := "Thrilling finale sees underdog team clinch victory in final seconds of play."
     category := "Sports", source := "Sports Daily" },
   { title := "New Health Study Reveals Benefits of Mediterranean Diet"
     description := "Long-term research confirms positive effects on heart health and longevity."
     category := "Health", source := "Health Journal" },
   { title := "Climate Scientists Report Concerning Trends in Global Temperatures"
     description := "Latest data shows acceleration in warming patterns across multiple regions."
     category := "Science", source := "Science Today" },
   { title := "Major Policy Changes Announced by Government Officials"
     description := "New legislation aims to address key concerns raised by citizens nationwide."
     category := "Politics", source := "Political Review" },
   { title := "Blockbuster Film Breaks Box Office Records"
     description := "Latest release exceeds expectations with record-breaking opening weekend."
     category := "Entertainment", source := "Entertainment Weekly" },
   { title := "Tech Giant Unveils Revolutionary New Product"
     description := "Company announces innovative device that promises to change how we interact with technology."
     category := "Technology", source := "Tech Insider" },
   { title := "Small Business Growth Surges in Rural Areas"
     description := "Entrepreneurial activity shows significant increase outside major metropolitan regions."
     category := "Business", source := "Business Week" },
   { title := "Olympic Athletes Prepare for Upcoming Games"
     description := "Training intensifies as competitors gear up for international competition."
     category := "Sports", source := "Olympic News" }]

/-- The list `samples * 3`: the catalog repeated three times "to get enough articles". -/
def tripledCatalog : List SampleItem := sampleCatalog ++ sampleCatalog ++ sampleCatalog

/-- The article built at loop index `i` for catalog entry `s`;
`now` stands for `datetime.now()` and hours are the timestamp unit, so
`published_at = now - i`. -/
def buildSample (now : Int) (i : Nat) (s : SampleItem) : NewsArticle :=
  { title := s.title ++ " - Update #" ++ toString (i / sampleCatalog.length + 1)
    description := s.description
    url := "https://example.com/article/" ++ toString i
    source := s.source
    published_at := now - i
    category := s.category }

/-- Catalog entry `s` survives the `if category and sample["category"] != category:
continue` filter. -/
def sampleMatches (category : String) (s : SampleItem) : Bool :=
  category = "" || s.category = category

/-- The `for i, sample in enumerate(samples * 3)` loop with its early
`break` once `count` articles are accumulated. -/
def sampleLoop (now : Int) (category : String) (count : Nat) :
    List (Nat × SampleItem) → List NewsArticle → List NewsArticle
  | [], acc => acc
  | (i, s) :: rest, acc =>
    if count ≤ acc.length then acc
    else if sampleMatches category s then
      sampleLoop now category count rest (acc ++ [buildSample now i s])
    else sampleLoop now category count rest acc

/-- Embeds `_generate_sample_news(category, count)`: run the loop over the
enumerated tripled catalog, then truncate (`articles[:count]`). -/
def generate_sample_news (category : String) (count : Nat) (now : Int) :
    List NewsArticle :=
  (sampleLoop now category count tripledCatalog.enum []).take count

/-! ### Store operations and enrichment loop -/

/-- The `defaultdict(int)` increment `m[k] += 1` on an insertion-ordered dict. -/
def bump (m : List (String × Nat)) (k : String) : List (String × Nat) :=
  match m with
  | [] => [(k, 1)]
  | (k', v) :: rest => if k' = k then (k', v + 1) :: rest else (k', v) :: bump rest k

/-- The per-article statistics update in the `fetch_news` processing loop. -/
def recordArticle (st : Statistics) (a : NewsArticle) : Statistics :=
  { total_articles := st.total_articles + 1
    by_category := bump st.by_category a.category
    by_sentiment := bump st.by_sentiment a.sentiment
    by_source := bump st.by_source a.source }

/-- The in-place enrichment of one article inside `fetch_news`: sentiment,
then summary, then keywords, each computed from the article as mutated so
far. -/
def enrich (a : NewsArticle) : NewsArticle :=
  let a1 := { a with sentiment := analyze_sentiment a }
  let a2 := { a1 with summary := generate_summary a1 }
  { a2 with keywords := extract_keywords a2 }

/-- The body of `fetch_news` after the articles list is obtained: enrich
every article, fold the statistics updates, extend the store, and return the
processed batch. -/
def processArticles (s : State) (incoming : List NewsArticle) :
    List NewsArticle × State :=
  let processed := incoming.map enrich
  let stats := processed.foldl recordArticle s.statistics
  (processed,
   { s with articles := s.articles ++ processed, statistics := stats })

/-- Embeds `fetch_news(query, category, max_results)`.  `apiArticles` is the result
of the external `_fetch_from_api` attempt (empty when the key is `"demo"` or
the call failed); when it is empty the sample generator supplies the batch. -/
def fetch_news (s : State) (apiArticles : List NewsArticle)
    (category : String) (max_results : Nat) (now : Int) :
    List NewsArticle × State :=
  let articles :=
    if apiArticles.isEmpty then generate_sample_news category max_results now
    else apiArticles
  processArticles s articles

/-- Embeds `clear_articles()`: empty the store, reset statistics, keep preferences. -/
def clear_articles (s : State) : State :=
  { s with articles := [], statistics := emptyStatistics }

/-- Embeds `get_statistics()`: a read-only snapshot of counters and preferences. -/
def get_statistics (s : State) : Statistics × Preferences :=
  (s.statistics, s.user_preferences)

/-- Embeds `set_user_preferences(categories, keywords, sources)`.  Each guard is
Python truthiness (`if categories:`), so `none` (omitted) and `some []`
(empty list) both leave the stored list unchanged. -/
def set_user_preferences (s : State)
    (categories keywords sources : Option (List String)) : State :=
  let p := s.user_preferences
  let p := match categories with
    | some cs => if cs.isEmpty then p else { p with categories := cs }
    | none => p
  let p := match keywords with
    | some ks => if ks.isEmpty then p else { p with keywords := ks }
    | none => p
  let p := match sources with
    | some ss => if ss.isEmpty then p else { p with sources := ss }
    | none => p
  { s with user_preferences := p }

/-! ### Query layer -/

/-- Embeds `get_articles_by_category`: exact-match scan. -/
def get_articles_by_category (s : State) (category : String) : List NewsArticle :=
  s.articles.filter (fun a => a.category = category)

/-- Embeds `get_articles_by_sentiment`: exact-match scan. -/
def get_articles_by_sentiment (s : State) (sentiment : String) : List NewsArticle :=
  s.articles.filter (fun a => a.sentiment = sentiment)

/-- Embeds `search_articles(query)`: case-insensitive substring match against title
or description. -/
def search_articles (s : State) (query : String) : List NewsArticle :=
  let q := pyLower query
  s.articles.filter (fun a =>
    strContains (pyLower a.title) q || strContains (pyLower a.description) q)

/-- The preference-keyword filter in `get_personalized_news`: the raw
preference keyword must occur in the lowercased title or description. -/
def matchesKeywords (ks : List String) (a : NewsArticle) : Bool :=
  ks.any (fun k => strContains (pyLower a.title) k || strContains (pyLower a.description) k)

/-- The sort order of `filtered.sort(key=lambda x: x.published_at,
reverse=True)`: later timestamps first. -/
def recencyOrder (a b : NewsArticle) : Prop := b.published_at ≤ a.published_at

instance : DecidableRel recencyOrder := fun a b =>
  inferInstanceAs (Decidable (b.published_at ≤ a.published_at))

instance : IsTotal NewsArticle recencyOrder :=
  ⟨fun a b => le_total b.published_at a.published_at⟩

instance : IsTrans NewsArticle recencyOrder :=
  ⟨fun _ _ _ h1 h2 => le_trans h2 h1⟩

/-- Embeds `get_personalized_news(limit)`.  Returns the result list and the state
after the call.  `filtered` starts as a reference to `self.articles`; each
non-empty preference rebinds it to a fresh list, and the final in-place
`filtered.sort(...)` therefore mutates the stored list exactly when all
three preference lists are empty.  Python's sort is stable, which
`List.insertionSort` with the non-strict total order `recencyOrder` models
exactly. -/
def get_personalized_news (s : State) (limit : Nat) :
    List NewsArticle × State :=
  let p := s.user_preferences
  let f1 :=
    if p.categories.isEmpty then s.articles
    else s.articles.filter (fun a => p.categories.contains a.category)
  let f2 := if p.keywords.isEmpty then f1 else f1.filter (matchesKeywords p.keywords)
  let f3 :=
    if p.sources.isEmpty then f2
    else f2.filter (fun a => p.sources.contains a.source)
  let sorted := f3.insertionSort recencyOrder
  let storeAfter :=
    if p.categories.isEmpty && p.keywords.isEmpty && p.sources.isEmpty then sorted
    else s.articles
  (sorted.take limit, { s with articles := storeAfter })

/-! ### Spec-side definitions used to compare against the code

These follow the wording of the specification (not the source) and exist
only to be measured against the embedded code. -/

/-- Number of (possibly overlapping) occurrence positions of `pat` in
`text` — the "count substring occurrences" reading of the specification. -/
def occCount (text pat : String) : Nat :=
  (text.toList.tails.filter (fun t => pat.toList.isPrefixOf t)).length

/-- Total number of substring occurrences of keywords of `kws` in `text`. -/
def occScore (kws : List String) (text : String) : Nat :=
  (kws.map (occCount text)).sum

/-- Summary as the specification words it: the candidate is the text of the
description up to and including the first period, with no whitespace
stripping. -/
def claimSummary (a : NewsArticle) : String :=
  if a.description.isEmpty then a.title
  else
    let candidate := String.mk (a.description.toList.takeWhile (fun c => c ≠ '.')) ++ "."
    if 20 < candidate.length then candidate else pyTake a.description 100 ++ "..."

/-- Summary as the claim must be amended: the candidate is the text of the
description before the first period, whitespace-trimmed, with a period
appended (for a period-free description this is the whole trimmed
description plus a period). -/
def amendedSummary (a : NewsArticle) : String :=
  if a.description.isEmpty then a.title
  else
    let candidate :=
      pyStrip (String.mk (a.description.toList.takeWhile (fun c => c ≠ '.'))) ++ "."
    if 20 < candidate.length then candidate else pyTake a.description 100 ++ "..."

/-- The effect of one optional argument of `set_user_preferences` on its
stored list: replace only when provided and nonempty. -/
def optReplace (o : Option (List String)) (old : List String) : List String :=
  match o with
  | some l => if l.isEmpty then old else l
  | none => old

/-- Sum of the counter values of one statistics dict. -/
def sumVals (m : List (String × Nat)) : Nat := (m.map Prod.snd).sum

/-- The cross-counter consistency invariant: the total equals the number of
stored articles and each per-key counter family sums to the total. -/
def StatsInv (s : State) : Prop :=
  s.statistics.total_articles = s.articles.length ∧
  s.statistics.total_articles = sumVals s.statistics.by_category ∧
  s.statistics.total_articles = sumVals s.statistics.by_sentiment ∧
  s.statistics.total_articles = sumVals s.statistics.by_source

/-! ### Concrete inputs used by counterexamples and witnesses -/

/-- An enriched article published at time 0. -/
def artOlder : NewsArticle :=
  { title := "Alpha", description := "", url := "", source := "S",
    published_at := 0, category := "General" }

/-- An enriched article published at time 5 (more recent than `artOlder`). -/
def artRecent : NewsArticle :=
  { title := "Beta", description := "", url := "", source := "S",
    published_at := 5, category := "General" }

/-- A store holding `artOlder` before `artRecent` (insertion order), with
all-empty preferences. -/
def sC1 : State :=
  { articles := [artOlder, artRecent]
    user_preferences := { categories := [], keywords := [], sources := [] }
    statistics := { total_articles := 2, by_category := [("General", 2)],
                    by_sentiment := [("neutral", 2)], by_source := [("S", 2)] } }

/-- An article whose text contains the positive keyword `win` twice and the
negative keywords `fail` and `crisis` once each. -/
def artC2 : NewsArticle :=
  { title := "win win fail crisis", description := "", url := "", source := "S",
    published_at := 0, category := "General" }

/-- An article whose text holds 2 positive keyword occurrences (`win`
twice) and 1 negative keyword occurrence (`fail`). -/
def artC2b : NewsArticle :=
  { title := "win win fail", description := "", url := "", source := "S",
    published_at := 0, category := "General" }

/-- A state whose stored category preference is nonempty. -/
def sC3 : State :=
  { articles := []
    user_preferences := { categories := ["Technology"], keywords := [], sources := [] }
    statistics := emptyStatistics }

/-- An article whose description has a first sentence that is longer than 20
characters only because of its leading space. -/
def artC4 : NewsArticle :=
  { title := "T", description := " Short one padded yes. more", url := "",
    source := "S", published_at := 0, category := "General" }

/-- The specification's own summary example article. -/
def artHello : NewsArticle :=
  { title := "T", description := "Hello world. More text.", url := "",
    source := "S", published_at := 0, category := "General" }

/-- The article the sample generator produces for the request
`("Health", 1)` at time 0: catalog index 3, first update round. -/
def artHealth : NewsArticle :=
  { title := "New Health Study Reveals Benefits of Mediterranean Diet - Update #1"
    description := "Long-term research confirms positive effects on heart health and longevity."
    url := "https://example.com/article/3"
    source := "Health Journal"
    published_at := -3
    category := "Health" }

/-- An article with four long non-stop-word tokens. -/
def artC6 : NewsArticle :=
  { title := "Hello brave wonderful world", description := "", url := "",
    source := "S", published_at := 0, category := "General" }

/-! ## Helper lemmas -/

theorem strContains_iff (s pat : String) :
    strContains s pat = true ↔ pat.toList <:+: s.toList := by
  simp only [strContains, List.any_eq_true]
  constructor
  · rintro ⟨t, ht, hp⟩
    exact List.infix_iff_prefix_suffix.mpr
      ⟨t, List.isPrefixOf_iff_prefix.mp hp, (List.mem_tails _ _).mp ht⟩
  · intro h
    rcases List.infix_iff_prefix_suffix.mp h with ⟨t, hp, hs⟩
    exact ⟨t, (List.mem_tails _ _).mpr hs, List.isPrefixOf_iff_prefix.mpr hp⟩

theorem pySplit_ne_nil (sep : Char) (l : List Char) : pySplit sep l ≠ [] := by
  induction l with
  | nil => simp [pySplit]
  | cons c rest ih =>
    rw [pySplit]
    split
    · simp
    · cases h : pySplit sep rest with
      | nil => exact absurd h ih
      | cons p ps => simp [h]

theorem pySplit_headD (sep : Char) (l : List Char) :
    (pySplit sep l).headD [] = l.takeWhile (fun c => c ≠ sep) := by
  induction l with
  | nil => simp [pySplit]
  | cons c rest ih =>
    rw [pySplit]
    by_cases hc : c = sep
    · subst hc
      simp [List.takeWhile_cons]
    · rw [if_neg hc]
      cases h : pySplit sep rest with
      | nil => exact absurd h (pySplit_ne_nil sep rest)
      | cons p ps =>
        rw [h] at ih
        simp only [List.headD_cons] at ih
        simp [List.takeWhile_cons, hc, ih]

theorem sumVals_bump (m : List (String × Nat)) (k : String) :
    sumVals (bump m k) = sumVals m + 1 := by
  induction m with
  | nil => simp [bump, sumVals]
  | cons p rest ih =>
    obtain ⟨k', v⟩ := p
    rw [bump]
    split
    · simp [sumVals]
      omega
    · simp only [sumVals, List.map_cons, List.sum_cons] at ih ⊢
      omega

/-! ## Claim theorems -/

/-- C1 (status: code_bug).  The claim says every read, in particular
`get_personalized_news` with all-empty preferences, leaves the stored
article list (including its insertion order) unchanged.  The code aliases
`filtered = self.articles` and, when all three preference lists are empty so
that no filter rebinds `filtered`, the in-place `filtered.sort(...)`
reorders the store itself: on a store holding the older article before the
more recent one, the call rewrites the store to recency order. -/
theorem personalized_news_mutates_store :
    (get_personalized_news sC1 10).2.articles = [artRecent, artOlder] ∧
    sC1.articles = [artOlder, artRecent] ∧
    (get_personalized_news sC1 10).2.articles ≠ sC1.articles := by decide

/-- C2 counterexample.  The claim says the classifier counts substring
occurrences of each keyword, classifies `"positive"` exactly when the
positive occurrence count is strictly greater (in particular on 2 positive
occurrences vs 1 negative), and `"neutral"` on ties.  The code scores each
keyword at most once (`if keyword in text`), so: on an article with
occurrence counts 2 (`win` twice) vs 1 (`fail`) it returns `"neutral"`, not
`"positive"`; and on an article with tied occurrence counts 2 (`win` twice)
vs 2 (`fail`, `crisis`) it returns `"negative"`, not `"neutral"`. -/
theorem sentiment_occurrence_counting_refuted :
    (occScore positiveKeywords (articleText artC2b) = 2 ∧
      occScore negativeKeywords (articleText artC2b) = 1 ∧
      analyze_sentiment artC2b = "neutral") ∧
    (occScore positiveKeywords (articleText artC2)
        = occScore negativeKeywords (articleText artC2) ∧
      analyze_sentiment artC2 = "negative") := by decide

/-- C2 (status: corrected).  Amended claim: sentiment counts, per fixed
list, the number of keywords that occur at least once as a substring of the
lowercased title-space-description (each keyword contributing at most one
point regardless of how often it occurs); the label is `"positive"` exactly
when the positive presence score strictly exceeds the negative one,
`"negative"` exactly when the negative score strictly exceeds the positive
one, and `"neutral"` exactly on ties (including 0-0). -/
theorem analyze_sentiment_presence_spec (a : NewsArticle) :
    (analyze_sentiment a = "positive" ↔
      presenceScore negativeKeywords (articleText a)
        < presenceScore positiveKeywords (articleText a)) ∧
    (analyze_sentiment a = "negative" ↔
      presenceScore positiveKeywords (articleText a)
        < presenceScore negativeKeywords (articleText a)) ∧
    (analyze_sentiment a = "neutral" ↔
      presenceScore positiveKeywords (articleText a)
        = presenceScore negativeKeywords (articleText a)) := by
  unfold analyze_sentiment
  rcases lt_trichotomy (presenceScore positiveKeywords (articleText a))
    (presenceScore negativeKeywords (articleText a)) with h | h | h
  · simp [Nat.not_lt_of_lt h, h, Nat.ne_of_lt h]
  · simp [h]
  · simp [Nat.not_lt_of_lt h, h, (Nat.ne_of_lt h).symm]

/-- C3 counterexample.  The claim says a provided empty list replaces the
stored preference with the empty list.  On a state whose stored category
preference is `["Technology"]`, calling `set_user_preferences` with an
explicit empty category list leaves the stored list nonempty (unchanged),
because Python's `if categories:` treats an empty list like an omitted
argument. -/
theorem set_preferences_empty_list_ignored :
    (set_user_preferences sC3 (some []) none none).user_preferences.categories
      = ["Technology"] ∧
    (set_user_preferences sC3 (some []) none none).user_preferences.categories
      ≠ [] := by decide

theorem set_prefs_fields (s : State) (cs ks ss : Option (List String)) :
    (set_user_preferences s cs ks ss).user_preferences.categories
      = optReplace cs s.user_preferences.categories ∧
    (set_user_preferences s cs ks ss).user_preferences.keywords
      = optReplace ks s.user_preferences.keywords ∧
    (set_user_preferences s cs ks ss).user_preferences.sources
      = optReplace ss s.user_preferences.sources := by
  rcases cs with _ | lc <;> rcases ks with _ | lk <;> rcases ss with _ | ls <;>
    simp only [set_user_preferences, optReplace] <;>
    (repeat' split) <;> first | rfl | simp_all

/-- C3 (status: corrected).  Amended claim: each argument that is provided
and nonempty replaces the corresponding preference list wholesale; an
argument that is omitted or provided as the empty list leaves the
corresponding stored preference unchanged. -/
theorem set_preferences_replace_spec (s : State)
    (cs ks ss : Option (List String)) :
    ((∀ l, cs = some l → l ≠ [] →
        (set_user_preferences s cs ks ss).user_preferences.categories = l) ∧
      (cs = none ∨ cs = some [] →
        (set_user_preferences s cs ks ss).user_preferences.categories
          = s.user_preferences.categories)) ∧
    ((∀ l, ks = some l → l ≠ [] →
        (set_user_preferences s cs ks ss).user_preferences.keywords = l) ∧
      (ks = none ∨ ks = some [] →
        (set_user_preferences s cs ks ss).user_preferences.keywords
          = s.user_preferences.keywords)) ∧
    ((∀ l, ss = some l → l ≠ [] →
        (set_user_preferences s cs ks ss).user_preferences.sources = l) ∧
      (ss = none ∨ ss = some [] →
        (set_user_preferences s cs ks ss).user_preferences.sources
          = s.user_preferences.sources)) := by
  obtain ⟨h1, h2, h3⟩ := set_prefs_fields s cs ks ss
  refine ⟨⟨?_, ?_⟩, ⟨?_, ?_⟩, ⟨?_, ?_⟩⟩
  · rintro l rfl hl
    rw [h1]
    simp [optReplace, List.isEmpty_iff, hl]
  · rintro (rfl | rfl) <;> rw [h1] <;> simp [optReplace]
  · rintro l rfl hl
    rw [h2]
    simp [optReplace, List.isEmpty_iff, hl]
  · rintro (rfl | rfl) <;> rw [h2] <;> simp [optReplace]
  · rintro l rfl hl
    rw [h3]
    simp [optReplace, List.isEmpty_iff, hl]
  · rintro (rfl | rfl) <;> rw [h3] <;> simp [optReplace]

/-- C3 witness: replacing categories with a nonempty list on `sC3` while
omitting keywords and passing an empty source list keeps keywords and
sources and installs the new category list. -/
theorem set_preferences_replace_witness :
    (set_user_preferences sC3 (some ["Sports"]) none (some [])).user_preferences.categories
      = ["Sports"] ∧
    (set_user_preferences sC3 (some ["Sports"]) none (some [])).user_preferences.keywords
      = sC3.user_preferences.keywords ∧
    (set_user_preferences sC3 (some ["Sports"]) none (some [])).user_preferences.sources
      = sC3.user_preferences.sources :=
  ⟨(set_preferences_replace_spec sC3 (some ["Sports"]) none (some [])).1.1
      ["Sports"] rfl (by decide),
   (set_preferences_replace_spec sC3 (some ["Sports"]) none (some [])).2.1.2
      (Or.inl rfl),
   (set_preferences_replace_spec sC3 (some ["Sports"]) none (some [])).2.2.2
      (Or.inr rfl)⟩

/-- C4 counterexample.  The claim says the candidate is the text of the
description up to and including the first period, used as-is when longer
than 20 characters.  On a description whose first sentence is longer than 20
characters only with its leading space, the code strips the whitespace
first, so the produced summary differs from the claimed one. -/
theorem summary_statement_differs_on_whitespace :
    generate_summary artC4 = "Short one padded yes." ∧
    claimSummary artC4 = " Short one padded yes." ∧
    generate_summary artC4 ≠ claimSummary artC4 := by decide

/-- C4 (status: corrected).  Amended claim: when the description is empty
the summary is the title; otherwise the candidate is the text of the
description before the first period with surrounding whitespace stripped
and a period appended (for a period-free description, the whole stripped
description plus a period), used as-is when longer than 20 characters, else
the first 100 characters of the description followed by `"..."`; in
particular the description `"Hello world. More text."` yields its first 100
characters plus the ellipsis, not `"Hello world."`. -/
theorem generate_summary_amended_spec :
    (∀ a : NewsArticle, generate_summary a = amendedSummary a) ∧
    generate_summary artHello = pyTake artHello.description 100 ++ "..." ∧
    generate_summary artHello ≠ "Hello world." := by
  refine ⟨fun a => ?_, by decide, by decide⟩
  simp only [generate_summary, amendedSummary, pySplit_headD]

/-- C7 (status: confirmed).  Clearing empties the store and resets the
statistics, so a statistics snapshot taken right after the clear shows a
zero total and empty per-category, per-sentiment and per-source counters,
while the user preferences are exactly those before the clear. -/
theorem clear_then_statistics (s : State) :
    get_statistics (clear_articles s)
      = ({ total_articles := 0, by_category := [], by_sentiment := [],
           by_source := [] }, s.user_preferences) ∧
    (clear_articles s).articles = [] ∧
    (clear_articles s).user_preferences = s.user_preferences :=
  ⟨rfl, rfl, rfl⟩

/-- C6 (status: confirmed).  Keyword extraction returns at most 5 tokens,
every returned token is longer than 4 characters, and no returned token is
a stop word. -/
theorem extract_keywords_spec (a : NewsArticle) :
    (extract_keywords a).length ≤ 5 ∧
    ∀ w ∈ extract_keywords a, 4 < w.length ∧ w ∉ commonWords := by
  constructor
  · simp only [extract_keywords, List.length_take]
    exact Nat.min_le_left 5 _
  · intro w hw
    simp only [extract_keywords] at hw
    have h1 := List.mem_dedup.mp (List.take_subset 5 _ hw)
    have h2 := (List.mem_filter.mp h1).2
    simpa using h2

/-- C6 witness: on a concrete article, `"hello"` is returned and satisfies
both bounds. -/
theorem extract_keywords_witness :
    "hello" ∈ extract_keywords artC6 ∧
    4 < "hello".length ∧ "hello" ∉ commonWords :=
  ⟨by decide, ((extract_keywords_spec artC6).2 "hello" (by decide)).1,
   ((extract_keywords_spec artC6).2 "hello" (by decide)).2⟩

/-- C8 (status: confirmed).  With all three preference lists empty,
`get_personalized_news` returns the whole store sorted by publish time
descending (a sorted permutation of the stored list), truncated to the
first `limit` elements. -/
theorem personalized_empty_prefs_sorted (s : State) (limit : Nat)
    (hc : s.user_preferences.categories = [])
    (hk : s.user_preferences.keywords = [])
    (hs : s.user_preferences.sources = []) :
    (get_personalized_news s limit).1
      = (s.articles.insertionSort recencyOrder).take limit ∧
    (s.articles.insertionSort recencyOrder).Perm s.articles ∧
    (s.articles.insertionSort recencyOrder).Sorted recencyOrder := by
  refine ⟨?_, List.perm_insertionSort recencyOrder s.articles,
    List.sorted_insertionSort recencyOrder s.articles⟩
  simp [get_personalized_news, hc, hk, hs]

/-- C8 witness: the instantiation on a concrete two-article store with
all-empty preferences. -/
theorem personalized_empty_prefs_witness :
    (get_personalized_news sC1 5).1
      = (sC1.articles.insertionSort recencyOrder).take 5 ∧
    (sC1.articles.insertionSort recencyOrder).Perm sC1.articles ∧
    (sC1.articles.insertionSort recencyOrder).Sorted recencyOrder :=
  personalized_empty_prefs_sorted sC1 5 rfl rfl rfl

/-- C9 (status: confirmed).  An article is returned by `search_articles`
exactly when it is stored and the lowercased query occurs as a substring of
its lowercased title or its lowercased description — case-insensitive and
purely substring-based (no word boundaries). -/
theorem search_articles_spec (s : State) (query : String) (a : NewsArticle) :
    a ∈ search_articles s query ↔
      a ∈ s.articles ∧
        ((pyLower query).toList <:+: (pyLower a.title).toList ∨
         (pyLower query).toList <:+: (pyLower a.description).toList) := by
  simp [search_articles, List.mem_filter, strContains_iff]

theorem sampleLoop_length (now : Int) (category : String) (count : Nat)
    (es : List (Nat × SampleItem)) :
    ∀ acc : List NewsArticle, acc.length ≤ count →
      (sampleLoop now category count es acc).length
        = min count
            (acc.length + (es.filter (fun p => sampleMatches category p.2)).length) := by
  induction es with
  | nil =>
    intro acc hacc
    rw [sampleLoop]
    simp
    omega
  | cons e rest ih =>
    obtain ⟨i, s⟩ := e
    intro acc hacc
    rw [sampleLoop]
    by_cases hfull : count ≤ acc.length
    · rw [if_pos hfull]
      omega
    · rw [if_neg hfull]
      by_cases hm : sampleMatches category s = true
      · rw [if_pos hm]
        rw [ih (acc ++ [buildSample now i s]) (by simp; omega)]
        simp [List.filter_cons, hm]
        omega
      · rw [if_neg hm]
        rw [ih acc hacc]
        simp [List.filter_cons, hm]

theorem sampleLoop_mem (now : Int) (category : String) (count : Nat)
    (es : List (Nat × SampleItem)) :
    ∀ (acc : List NewsArticle) (a : NewsArticle),
      a ∈ sampleLoop now category count es acc →
      a ∈ acc ∨ ∃ i s, (i, s) ∈ es ∧ sampleMatches category s = true
        ∧ a = buildSample now i s := by
  induction es with
  | nil =>
    intro acc a ha
    rw [sampleLoop] at ha
    exact Or.inl ha
  | cons e rest ih =>
    obtain ⟨i, s⟩ := e
    intro acc a ha
    rw [sampleLoop] at ha
    by_cases hfull : count ≤ acc.length
    · rw [if_pos hfull] at ha
      exact Or.inl ha
    · rw [if_neg hfull] at ha
      by_cases hm : sampleMatches category s = true
      · rw [if_pos hm] at ha
        rcases ih _ a ha with h | ⟨i', s', hmem, hm', heq⟩
        · rcases List.mem_append.mp h with h | h
          · exact Or.inl h
          · right
            refine ⟨i, s, List.mem_cons_self _ _, hm, ?_⟩
            simpa using h
        · exact Or.inr ⟨i', s', List.mem_cons_of_mem _ hmem, hm', heq⟩
      · rw [if_neg hm] at ha
        rcases ih _ a ha with h | ⟨i', s', hmem, hm', heq⟩
        · exact Or.inl h
        · exact Or.inr ⟨i', s', List.mem_cons_of_mem _ hmem, hm', heq⟩

theorem enumFrom_filter_length (q : SampleItem → Bool) (l : List SampleItem) :
    ∀ n, ((List.enumFrom n l).filter (fun p => q p.2)).length
      = (l.filter q).length := by
  induction l with
  | nil => intro n; rfl
  | cons x xs ih =>
    intro n
    rw [List.enumFrom, List.filter_cons, List.filter_cons]
    by_cases h : q x = true
    · simp [h, ih (n + 1)]
    · simp [h, ih (n + 1)]

/-- C5 (status: confirmed).  The sample generator always returns exactly
`min(requested count, catalog items surviving the category filter)` articles
(over the tripled round-robin catalog the code iterates), and whenever a
category was requested every returned article carries it.  The generator is
a total function, so it never fails. -/
theorem generate_sample_news_spec (category : String) (count : Nat) (now : Int) :
    (generate_sample_news category count now).length
      = min count (tripledCatalog.filter (sampleMatches category)).length ∧
    ∀ a ∈ generate_sample_news category count now,
      category ≠ "" → a.category = category := by
  constructor
  · rw [generate_sample_news, List.length_take]
    rw [sampleLoop_length now category count _ [] (by simp)]
    simp only [List.enum, enumFrom_filter_length, List.length_nil, Nat.zero_add]
    omega
  · intro a ha hcat
    have ha' := List.take_subset count _ ha
    rcases sampleLoop_mem now category count _ [] a ha' with h | ⟨i, s, _, hm, rfl⟩
    · simp at h
    · simp only [buildSample]
      simp [sampleMatches, hcat] at hm
      exact hm

set_option maxRecDepth 8000 in
/-- C5 witness: requesting one Health article at time 0 returns the Health
catalog entry, and its category is `"Health"`. -/
theorem generate_sample_news_witness :
    artHealth ∈ generate_sample_news "Health" 1 0 ∧
    artHealth.category = "Health" :=
  ⟨by decide,
   (generate_sample_news_spec "Health" 1 0).2 artHealth (by decide) (by decide)⟩

theorem foldl_recordArticle (l : List NewsArticle) :
    ∀ st : Statistics,
      (l.foldl recordArticle st).total_articles = st.total_articles + l.length ∧
      sumVals (l.foldl recordArticle st).by_category
        = sumVals st.by_category + l.length ∧
      sumVals (l.foldl recordArticle st).by_sentiment
        = sumVals st.by_sentiment + l.length ∧
      sumVals (l.foldl recordArticle st).by_source
        = sumVals st.by_source + l.length := by
  induction l with
  | nil => intro st; simp
  | cons a rest ih =>
    intro st
    simp only [List.foldl_cons, List.length_cons]
    obtain ⟨h1, h2, h3, h4⟩ := ih (recordArticle st a)
    rw [h1, h2, h3, h4]
    refine ⟨?_, ?_, ?_, ?_⟩ <;> simp [recordArticle, sumVals_bump] <;> omega

/-- C10 (status: confirmed).  The cross-counter invariant — the statistics
total equals the number of stored articles and equals the sum of the
per-category, per-sentiment and per-source counters — holds initially and
is preserved by every operation that can touch the state: `fetch_news`
(with any external fetch result), `clear_articles`, `set_user_preferences`,
and `get_personalized_news` (the one read whose in-place sort can rewrite
the stored list; the remaining reads do not touch the state at all). -/
theorem statistics_invariant (s : State) (h : StatsInv s)
    (api : List NewsArticle) (category : String) (n : Nat) (now : Int)
    (cs ks ss : Option (List String)) (limit : Nat) :
    StatsInv initialState ∧
    StatsInv (fetch_news s api category n now).2 ∧
    StatsInv (clear_articles s) ∧
    StatsInv (set_user_preferences s cs ks ss) ∧
    StatsInv (get_personalized_news s limit).2 := by
  obtain ⟨h1, h2, h3, h4⟩ := h
  refine ⟨⟨rfl, rfl, rfl, rfl⟩, ?_, ⟨rfl, rfl, rfl, rfl⟩, ⟨h1, h2, h3, h4⟩, ?_⟩
  · simp only [fetch_news, processArticles]
    obtain ⟨f1, f2, f3, f4⟩ := foldl_recordArticle
      ((if api.isEmpty then generate_sample_news category n now else api).map enrich)
      s.statistics
    refine ⟨?_, ?_, ?_, ?_⟩ <;>
      simp only [f1, f2, f3, f4, List.length_append, List.length_map] <;> omega
  · refine ⟨?_, h2, h3, h4⟩
    by_cases hb1 : s.user_preferences.categories.isEmpty <;>
      by_cases hb2 : s.user_preferences.keywords.isEmpty <;>
        by_cases hb3 : s.user_preferences.sources.isEmpty <;>
          simp [get_personalized_news, hb1, hb2, hb3,
            List.length_insertionSort, h1]

/-- C10 witness: the invariant instantiated on the freshly initialised
agent, a demo-key fetch of 20 general articles, and trivial follow-up
operations. -/
theorem statistics_invariant_witness :
    StatsInv initialState ∧
    StatsInv (fetch_news initialState [] "" 20 0).2 ∧
    StatsInv (clear_articles initialState) ∧
    StatsInv (set_user_preferences initialState none none none) ∧
    StatsInv (get_personalized_news initialState 10).2 :=
  statistics_invariant initialState ⟨rfl, rfl, rfl, rfl⟩ [] "" 20 0 none none none 10

end NewsGenie
